import Mathlib

/-!
Shallow embedding of `src/lib/datasource_manager.py` (wttr.in multi-datasource
manager): the provider registry / quota tracker / circuit breaker / selector
(`DataSourceManager`) and the four payload normalizers.

Modelling conventions:
* Python dicts/JSON values are modelled by the inductive type `J`.
* Python numbers are modelled by `ℚ`; `round(x, 0)` (round half to even) is
  `pyRound`, `int(x)` (truncation toward zero) is `pyTrunc`.
* The external HTTP fetch collaborator is modelled by a `FetchOutcome`
  parameter (a returned value, possibly `None`, or a raised exception).
* `random.choice` over the eligible list is modelled by an arbitrary index
  `k`, taken modulo the list length.
* Background timers (`threading.Thread` + `time.sleep`) are modelled
  explicitly: `disable_source` returns the list of scheduled re-enable events
  `(name, fireTime)`, and `fireDue` delivers all events due at a given time.
* A present-but-ill-typed field, on which Python would raise a `TypeError`
  inside a normalizer, is modelled by the extraction helpers as yielding the
  same default as a missing field; no claim exercises such payloads.
-/

/-- JSON-like values: the payloads the normalizers consume and produce. -/
inductive J where
  | null
  | b (v : Bool)
  | num (q : ℚ)
  | str (s : String)
  | arr (xs : List J)
  | obj (kvs : List (String × J))

/-- Dictionary key lookup: `d[k]` / `k in d` support. Non-objects have no keys. -/
def J.get? : J → String → Option J
  | .obj kvs, k => (kvs.find? (fun p => decide (p.1 = k))).map (fun p => p.2)
  | _, _ => none

/-- Python `k in d` on a dict. -/
def J.hasKey (j : J) (k : String) : Bool := (j.get? k).isSome

/-- Python `d.get(k, default)`. -/
def J.getD (j : J) (k : String) (d : J) : J := (j.get? k).getD d

/-- Python `d.get(k, {})`, used when the value is consumed as a dict. -/
def J.objD (j : J) (k : String) : J := j.getD k (J.obj [])

/-- Python `d.get(k, default)` where the value is consumed as a number.
A present non-numeric value (Python: later `TypeError`) yields the default. -/
def J.qOr (j : J) (k : String) (d : ℚ) : ℚ :=
  match j.get? k with
  | some (.num q) => q
  | _ => d

/-- Python `d.get(k, default)` where the value is consumed as a string.
A present non-string value yields the default. -/
def J.sOr (j : J) (k : String) (d : String) : String :=
  match j.get? k with
  | some (.str s) => s
  | _ => d

/-- Python `d.get(k, [{}])[0]`: first element of a list-valued field, the
empty dict when the key is absent. An empty or non-list value (Python: an
`IndexError`/`TypeError`) also yields the empty dict. -/
def J.elem0D (j : J) (k : String) : J :=
  match j.get? k with
  | some (.arr (x :: _)) => x
  | _ => J.obj []

/-- Python truthiness of a value (`if data:`). -/
def J.truthy : J → Bool
  | .null => false
  | .b v => v
  | .num q => decide (q ≠ 0)
  | .str s => decide (s ≠ "")
  | .arr xs => !xs.isEmpty
  | .obj kvs => !kvs.isEmpty

/-- Python `d.pop(k, None)`: remove a key from a dict (other values unchanged). -/
def J.popKey : J → String → J
  | .obj kvs, k => J.obj (kvs.filter (fun p => decide (p.1 ≠ k)))
  | j, _ => j

/-- Python `int(round(x, 0))`: round half to even, as an integer. -/
def pyRound (q : ℚ) : ℤ :=
  if q - (⌊q⌋ : ℚ) < 1/2 then ⌊q⌋
  else if (1:ℚ)/2 < q - (⌊q⌋ : ℚ) then ⌊q⌋ + 1
  else if ⌊q⌋ % 2 = 0 then ⌊q⌋ else ⌊q⌋ + 1

/-- Python `int(x)` on a number: truncation toward zero. -/
def pyTrunc (q : ℚ) : ℤ := q.num / (q.den : ℤ)

/-- Python `str(x)` on a JSON number. Integral values print as integers,
matching Python exactly; non-integral passthrough values (which no claim
exercises) are printed as fractions, unlike Python float repr. -/
def jNumStr (q : ℚ) : String :=
  if q.den = 1 then toString q.num else toString q.num ++ "/" ++ toString q.den

/-- Evaluation rule for `pyRound` below the half-way point. -/
lemma pyRound_lt_half (q : ℚ) (z : ℤ) (h1 : (z : ℚ) ≤ q) (h2 : q < z + 1/2) :
    pyRound q = z := by
  have hf : ⌊q⌋ = z := Int.floor_eq_iff.mpr ⟨h1, by linarith⟩
  have hr : q - (z : ℚ) < 1/2 := by linarith
  unfold pyRound
  rw [hf, if_pos hr]

/-- Evaluation rule for `pyRound` above the half-way point. -/
lemma pyRound_gt_half (q : ℚ) (z : ℤ) (h1 : (z : ℚ) + 1/2 < q) (h2 : q < z + 1) :
    pyRound q = z + 1 := by
  have hf : ⌊q⌋ = z := Int.floor_eq_iff.mpr ⟨by linarith, h2⟩
  have hr1 : ¬ (q - (z : ℚ) < 1/2) := by push_neg; linarith
  have hr2 : (1:ℚ)/2 < q - (z : ℚ) := by linarith
  unfold pyRound
  rw [hf, if_neg hr1, if_pos hr2]

/-- Evaluation rule for `pyRound` at an exact half-way tie: round half to even. -/
lemma pyRound_tie (q : ℚ) (z : ℤ) (h : q = (z : ℚ) + 1/2) :
    pyRound q = if z % 2 = 0 then z else z + 1 := by
  have hf : ⌊q⌋ = z := Int.floor_eq_iff.mpr ⟨by rw [h]; linarith, by rw [h]; linarith⟩
  have hr : q - (z : ℚ) = 1/2 := by rw [h]; ring
  unfold pyRound
  rw [hf, hr, if_neg (lt_irrefl ((1:ℚ)/2)), if_neg (lt_irrefl ((1:ℚ)/2))]

/-! ## The provider registry, quota tracker, circuit breaker and selector -/

/-- `DataSourceType` enum from the source. -/
inductive DataSourceType where
  | metno
  | openweathermap
  | weatherapi
  | accuweather
deriving DecidableEq

/-- The `DataSource` dataclass: one provider descriptor, with the same field
names and default values as the source. Usage counters are natural numbers
(Python ints used as non-negative counters); timestamps are rationals. -/
structure DataSource where
  name : String
  type : DataSourceType
  base_url : String
  api_key : Option String := none
  rate_limit : Nat := 1000
  current_usage : Nat := 0
  last_reset : ℚ := 0
  enabled : Bool := true
deriving DecidableEq

/-- The manager's `self.sources` dict, as an association list keyed by
`DataSource.name` (Python dict keys are unique; lookups and updates below
consistently act on the first matching entry). -/
def findSource (st : List DataSource) (n : String) : Option DataSource :=
  match st with
  | [] => none
  | s :: rest => if s.name = n then some s else findSource rest n

/-- Update the (first) entry named `n`; identity when no entry matches,
mirroring a keyed dict write. -/
def updateSource (st : List DataSource) (n : String) (f : DataSource → DataSource) :
    List DataSource :=
  match st with
  | [] => []
  | s :: rest => if s.name = n then f s :: rest else s :: updateSource rest n f

/-- The list comprehension in `get_available_source`: enabled providers still
under their rate limit. -/
def availableSources (st : List DataSource) : List DataSource :=
  st.filter (fun s => s.enabled && decide (s.current_usage < s.rate_limit))

/-- `DataSourceManager.get_available_source`. `random.choice` over the
non-empty eligible list is modelled by an arbitrary draw index `k`, taken
modulo the list length. -/
def get_available_source (st : List DataSource) (k : Nat) : Option DataSource :=
  if (availableSources st).isEmpty then none
  else (availableSources st).get? (k % (availableSources st).length)

/-- `DataSourceManager.mark_source_used`: increment the usage counter of a
registered source; silently do nothing for an unknown name. -/
def mark_source_used (st : List DataSource) (n : String) : List DataSource :=
  if (findSource st n).isSome then
    updateSource st n (fun s => { s with current_usage := s.current_usage + 1 })
  else st

/-- `DataSourceManager.disable_source`: set `enabled := false` for a
registered source and schedule one re-enable 300 seconds from `now` (the
spawned `threading.Thread` with `time.sleep(300)` is modelled by returning
the scheduled event list); do nothing for an unknown name. -/
def disable_source (st : List DataSource) (n : String) (now : ℚ) :
    List DataSource × List (String × ℚ) :=
  if (findSource st n).isSome then
    (updateSource st n (fun s => { s with enabled := false }), [(n, now + 300)])
  else (st, [])

/-- The outcome of `_fetch_from_source` (the external HTTP collaborator plus
the normalizer): either a returned value (`none` models Python `None`) or a
raised exception. -/
inductive FetchOutcome where
  | value (data : Option J)
  | raised

/-- Python truthiness of an `Optional[Dict]` (`if data:`). -/
def truthyOpt : Option J → Bool
  | none => false
  | some j => j.truthy

/-- `DataSourceManager.fetch_weather_data`: select a source (draw index `k`);
on no source return `None`; on a truthy fetched result record usage and
return it; on a falsy result or a raised exception disable the source.
Returns (result, new sources dict, scheduled re-enable events). -/
def fetch_weather_data (st : List DataSource) (k : Nat) (oc : FetchOutcome) (now : ℚ) :
    Option J × List DataSource × List (String × ℚ) :=
  match get_available_source st k with
  | none => (none, st, [])
  | some source =>
    match oc with
    | .value data =>
      if truthyOpt data then (data, mark_source_used st source.name, [])
      else (none, (disable_source st source.name now).1, (disable_source st source.name now).2)
    | .raised =>
      (none, (disable_source st source.name now).1, (disable_source st source.name now).2)

/-- `isEnabled` of a named provider (false for an unknown name). -/
def isEnabled (st : List DataSource) (n : String) : Bool :=
  match findSource st n with
  | some s => s.enabled
  | none => false

/-! ## Timed behaviour of the circuit breaker

Each `disable_source` spawns an independent one-shot timer. `TimedState`
carries the sources dict together with the not-yet-fired re-enable events. -/

/-- Sources dict plus pending re-enable events `(name, fireTime)`. -/
structure TimedState where
  sources : List DataSource
  pending : List (String × ℚ)

/-- The body of the re-enable timer: `self.sources[source_name].enabled = True`,
unconditionally. -/
def enable_in (st : List DataSource) (n : String) : List DataSource :=
  updateSource st n (fun s => { s with enabled := true })

/-- `disable_source` acting on a timed state at time `now`: the scheduled
event is appended to the pending list. -/
def disableAt (ts : TimedState) (n : String) (now : ℚ) : TimedState :=
  { sources := (disable_source ts.sources n now).1,
    pending := ts.pending ++ (disable_source ts.sources n now).2 }

/-- Deliver every pending timer whose fire time has been reached by `now`
(each sleeping thread wakes once its 300 seconds have elapsed). -/
def fireDue (ts : TimedState) (now : ℚ) : TimedState :=
  { sources := ts.pending.foldl
      (fun acc p => if p.2 ≤ now then enable_in acc p.1 else acc) ts.sources,
    pending := ts.pending.filter (fun p => decide (¬ p.2 ≤ now)) }

/-! ## Gated quota updates (the intended usage discipline of §8 of the spec) -/

/-- One step of the sequential discipline in which every `mark_source_used`
is preceded by a passing eligibility check (the same predicate
`get_available_source` filters by): a pure check mutates nothing, a gated
use increments only when the check passes. -/
inductive QuotaOp where
  | check (n : String)
  | checkedUse (n : String)

/-- Eligibility of a named provider, exactly the filter predicate of
`availableSources`. -/
def isEligibleFor (st : List DataSource) (n : String) : Bool :=
  match findSource st n with
  | some s => s.enabled && decide (s.current_usage < s.rate_limit)
  | none => false

/-- Apply one `QuotaOp` to the sources dict. -/
def applyQuotaOp (st : List DataSource) (op : QuotaOp) : List DataSource :=
  match op with
  | .check _ => st
  | .checkedUse n => if isEligibleFor st n then mark_source_used st n else st

/-! ## The normalizer set -/

/-- The fixed ordered 16-point compass list from `_degrees_to_16_point`. -/
def directions16 : List String :=
  ["N", "NNE", "NE", "ENE", "E", "ESE", "SE", "SSE",
   "S", "SSW", "SW", "WSW", "W", "WNW", "NW", "NNW"]

/-- `DataSourceManager._degrees_to_16_point`:
`index = round(degrees / 22.5) % 16; return directions[index]`.
Python `%` with a positive modulus is Euclidean, hence `Int.emod`; the index
always lands in `[0, 16)`, so the `getD` default is never taken. -/
def degrees_to_16_point (degrees : ℚ) : String :=
  (directions16.get? ((pyRound (degrees / 22.5)) % 16).toNat).getD "N"

/-- The explicit OpenWeatherMap-to-WWO weather-code lookup table from
`_openweather_to_wwo_code`. -/
def owmCodeTable : List (ℚ × ℤ) :=
  [(200, 200), (201, 386), (202, 389), (210, 200), (211, 389), (212, 389),
   (221, 389), (230, 200), (231, 386), (232, 389),
   (300, 266), (301, 266), (302, 302), (310, 266), (311, 293), (312, 302),
   (313, 305), (314, 302), (321, 299),
   (500, 176), (501, 293), (502, 302), (503, 308), (504, 308), (511, 284),
   (520, 299), (521, 305), (522, 302), (531, 305),
   (600, 320), (601, 332), (602, 230), (611, 281), (612, 284), (613, 284),
   (615, 317), (616, 317), (620, 368), (621, 371), (622, 230),
   (701, 143), (711, 143), (721, 143), (731, 143), (741, 143), (751, 143),
   (761, 143), (762, 143), (771, 143), (781, 143),
   (800, 113), (801, 116), (802, 119), (803, 119), (804, 122)]

/-- `DataSourceManager._openweather_to_wwo_code`: table lookup with default
113 ("clear sky") for any unmapped input code. -/
def openweather_to_wwo_code (c : ℚ) : ℤ :=
  ((owmCodeTable.find? (fun p => decide (p.1 = c))).map (fun p => p.2)).getD 113

/-- `temp_c = hour_data.get('temp', 0)`, then
`if isinstance(temp_c, dict): temp_c = temp_c.get('day', 0)`. -/
def owmTempOf (h : J) : ℚ :=
  match h.get? "temp" with
  | some (.obj kvs) => (J.obj kvs).qOr "day" 0
  | some (.num q) => q
  | _ => 0

/-- `DataSourceManager._convert_openweather_hourly`. Fields in source order;
every `str(int(round(x, 0)))` becomes `toString (pyRound x)` and every plain
`str(number)` becomes `jNumStr`. -/
def convert_openweather_hourly (h : J) : J :=
  J.obj [
    ("temp_C", J.str (toString (pyRound (owmTempOf h)))),
    ("temp_F", J.str (toString (pyRound (owmTempOf h * 9/5 + 32)))),
    ("weatherCode", J.str (toString (openweather_to_wwo_code ((h.elem0D "weather").qOr "id" 800)))),
    ("weatherDesc", J.arr [J.obj [("value",
      J.str (String.capitalize ((h.elem0D "weather").sOr "description" "Clear")))]]),
    ("windspeedKmph", J.str (toString (pyRound (h.qOr "wind_speed" 0 * 3.6)))),
    ("windspeedMiles", J.str (toString (pyRound (h.qOr "wind_speed" 0 * 3.6 * 0.621371)))),
    ("winddirDegree", J.str (jNumStr (h.qOr "wind_deg" 0))),
    ("winddir16Point", J.str (degrees_to_16_point (h.qOr "wind_deg" 0))),
    ("precipMM", J.str (jNumStr (if h.hasKey "rain" then (h.objD "rain").qOr "1h" 0 else 0))),
    ("humidity", J.str (jNumStr (h.qOr "humidity" 0))),
    ("pressure", J.str (jNumStr (h.qOr "pressure" 0))),
    ("visibility", J.str (jNumStr (if h.hasKey "visibility" then h.qOr "visibility" 0 else 10000))),
    ("cloudcover", J.str (jNumStr (h.qOr "clouds" 0))),
    ("FeelsLikeC", J.str (toString (pyRound (h.qOr "feels_like" (owmTempOf h))))),
    ("uvIndex", J.str (toString (pyTrunc (h.qOr "uvi" 0))))]

/-- `DataSourceManager._convert_openweather_daily`. -/
def convert_openweather_daily (d : J) : J :=
  J.obj [
    ("date", J.num (d.qOr "dt" 0)),
    ("maxtempC", J.str (toString (pyRound ((d.objD "temp").qOr "max" 0)))),
    ("maxtempF", J.str (toString (pyRound ((d.objD "temp").qOr "max" 0 * 9/5 + 32)))),
    ("mintempC", J.str (toString (pyRound ((d.objD "temp").qOr "min" 0)))),
    ("mintempF", J.str (toString (pyRound ((d.objD "temp").qOr "min" 0 * 9/5 + 32)))),
    ("avgtempC", J.str (toString (pyRound ((d.objD "temp").qOr "day" 0)))),
    ("avgtempF", J.str (toString (pyRound ((d.objD "temp").qOr "day" 0 * 9/5 + 32)))),
    ("totalSnow_cm", J.str (jNumStr (d.qOr "snow" 0))),
    ("sunHour", J.str "12"),
    ("uvIndex", J.str (toString (pyTrunc (d.qOr "uvi" 0)))),
    ("hourly", J.arr [])]

/-- `DataSourceManager._convert_openweather_to_standard`: `None` when the
payload is falsy or lacks the top-level `current` key; otherwise the standard
response shape with the daily list truncated to `days` entries. -/
def convert_openweather_to_standard (data : J) (days : Nat) : Option J :=
  if !data.truthy || !data.hasKey "current" then none
  else some (J.obj [("data", J.obj [
    ("request", J.arr [J.obj [("type", J.str "feature"),
      ("query", J.str (jNumStr (data.qOr "lat" 0) ++ "," ++ jNumStr (data.qOr "lon" 0)))]]),
    ("current_condition", J.arr [convert_openweather_hourly ((data.get? "current").getD J.null)]),
    ("weather", J.arr (match data.get? "daily" with
      | some (J.arr xs) => (xs.take days).map convert_openweather_daily
      | _ => []))])])

/-- `DataSourceManager._convert_metno_to_standard`: the "simplified
conversion" stub. It is a total function (no `None` branch): every field
except `temp_C` is a fixed constant, and `temp_C` is the unrounded `str` of
the deeply defaulted `air_temperature` chain. The `days` argument is unused
by the source body. -/
def convert_metno_to_standard (data : J) (days : Nat) : J :=
  J.obj [("data", J.obj [
    ("current_condition", J.arr [J.obj [
      ("temp_C", J.str (jNumStr (data.objD "properties" |>.elem0D "timeseries" |>.objD
        "data" |>.objD "instant" |>.objD "details" |>.qOr "air_temperature" 0))),
      ("weatherDesc", J.arr [J.obj [("value", J.str "Clear")]]),
      ("humidity", J.str "50"),
      ("windspeedKmph", J.str "10")]]),
    ("weather", J.arr [])])]

/-- `DataSourceManager._convert_weatherapi_hourly`. WeatherAPI supplies km/h
natively; mph falls back to `wind_kph * 0.621371` and `temp_f` falls back to
`temp_c * 9/5 + 32` when the source omits them; `wind_dir` (already a
16-point label) is passed through. -/
def convert_weatherapi_hourly (h : J) : J :=
  J.obj [
    ("temp_C", J.str (toString (pyRound (h.qOr "temp_c" 0)))),
    ("temp_F", J.str (toString (pyRound (h.qOr "temp_f" (h.qOr "temp_c" 0 * 9/5 + 32))))),
    ("weatherCode", J.str (jNumStr ((h.objD "condition").qOr "code" 1000))),
    ("weatherDesc", J.arr [J.obj [("value", J.str ((h.objD "condition").sOr "text" "Clear"))]]),
    ("windspeedKmph", J.str (toString (pyRound (h.qOr "wind_kph" 0)))),
    ("windspeedMiles", J.str (toString (pyRound (h.qOr "wind_mph" (h.qOr "wind_kph" 0 * 0.621371))))),
    ("winddirDegree", J.str (jNumStr (h.qOr "wind_degree" 0))),
    ("winddir16Point", J.str (h.sOr "wind_dir" "N")),
    ("precipMM", J.str (jNumStr (h.qOr "precip_mm" 0))),
    ("humidity", J.str (jNumStr (h.qOr "humidity" 0))),
    ("pressure", J.str (jNumStr (h.qOr "pressure_mb" 0))),
    ("visibility", J.str (jNumStr (h.qOr "vis_km" 0 * 1000))),
    ("cloudcover", J.str (jNumStr (h.qOr "cloud" 0))),
    ("FeelsLikeC", J.str (toString (pyRound (h.qOr "feelslike_c" (h.qOr "temp_c" 0))))),
    ("uvIndex", J.str (toString (pyTrunc (h.qOr "uv" 0))))]

/-- `DataSourceManager._convert_weatherapi_daily`. -/
def convert_weatherapi_daily (d : J) : J :=
  J.obj [
    ("date", J.str (d.sOr "date" "")),
    ("maxtempC", J.str (toString (pyRound ((d.objD "day").qOr "maxtemp_c" 0)))),
    ("maxtempF", J.str (toString (pyRound ((d.objD "day").qOr "maxtemp_f" 0)))),
    ("mintempC", J.str (toString (pyRound ((d.objD "day").qOr "mintemp_c" 0)))),
    ("mintempF", J.str (toString (pyRound ((d.objD "day").qOr "mintemp_f" 0)))),
    ("avgtempC", J.str (toString (pyRound ((d.objD "day").qOr "avgtemp_c" 0)))),
    ("avgtempF", J.str (toString (pyRound ((d.objD "day").qOr "avgtemp_f" 0)))),
    ("totalSnow_cm", J.str (jNumStr ((d.objD "day").qOr "totalsnow_cm" 0))),
    ("sunHour", J.str "12"),
    ("uvIndex", J.str (toString (pyTrunc ((d.objD "day").qOr "uv" 0)))),
    ("hourly", J.arr [])]

/-- `DataSourceManager._convert_weatherapi_to_standard`: `None` when the
payload is falsy or lacks the top-level `current` or `location` keys. -/
def convert_weatherapi_to_standard (data : J) (days : Nat) : Option J :=
  if !data.truthy || !data.hasKey "current" || !data.hasKey "location" then none
  else some (J.obj [("data", J.obj [
    ("request", J.arr [J.obj [("type", J.str "feature"),
      ("query", J.str (jNumStr (((data.get? "location").getD J.null).qOr "lat" 0) ++ "," ++
        jNumStr (((data.get? "location").getD J.null).qOr "lon" 0)))]]),
    ("current_condition", J.arr [convert_weatherapi_hourly ((data.get? "current").getD J.null)]),
    ("weather", J.arr (match (data.objD "forecast").get? "forecastday" with
      | some (J.arr xs) => (xs.take days).map convert_weatherapi_daily
      | _ => []))])])

/-- `DataSourceManager._convert_accuweather_daily`. AccuWeather supplies mph;
km/h is derived as `Value * 1.60934`; `winddir16Point` is the hard-coded
string "N" and `weatherCode` the hard-coded "113". -/
def convert_accuweather_daily (d : J) : J :=
  J.obj [
    ("date", J.str (d.sOr "Date" "")),
    ("maxtempC", J.str (toString (pyRound ((d.objD "Temperature" |>.objD "Maximum").qOr "Value" 0)))),
    ("maxtempF", J.str (toString (pyRound ((d.objD "Temperature" |>.objD "Maximum").qOr "Value" 0 * 9/5 + 32)))),
    ("mintempC", J.str (toString (pyRound ((d.objD "Temperature" |>.objD "Minimum").qOr "Value" 0)))),
    ("mintempF", J.str (toString (pyRound ((d.objD "Temperature" |>.objD "Minimum").qOr "Value" 0 * 9/5 + 32)))),
    ("avgtempC", J.str (toString (pyRound (((d.objD "Temperature" |>.objD "Maximum").qOr "Value" 0 +
      (d.objD "Temperature" |>.objD "Minimum").qOr "Value" 0) / 2)))),
    ("avgtempF", J.str (toString (pyRound (((d.objD "Temperature" |>.objD "Maximum").qOr "Value" 0 +
      (d.objD "Temperature" |>.objD "Minimum").qOr "Value" 0) / 2 * 9/5 + 32)))),
    ("totalSnow_cm", J.str "0"),
    ("sunHour", J.str (jNumStr (d.qOr "HoursOfSun" 12))),
    ("uvIndex", J.str (jNumStr (d.qOr "UVIndex" 0))),
    ("hourly", J.arr []),
    ("temp_C", J.str (toString (pyRound (((d.objD "Temperature" |>.objD "Maximum").qOr "Value" 0 +
      (d.objD "Temperature" |>.objD "Minimum").qOr "Value" 0) / 2)))),
    ("temp_F", J.str (toString (pyRound (((d.objD "Temperature" |>.objD "Maximum").qOr "Value" 0 +
      (d.objD "Temperature" |>.objD "Minimum").qOr "Value" 0) / 2 * 9/5 + 32)))),
    ("weatherCode", J.str "113"),
    ("weatherDesc", J.arr [J.obj [("value", J.str (d.sOr "IconPhrase" "Clear"))]]),
    ("windspeedKmph", J.str (toString (pyRound ((d.objD "Wind" |>.objD "Speed").qOr "Value" 0 * 1.60934)))),
    ("windspeedMiles", J.str (toString (pyRound ((d.objD "Wind" |>.objD "Speed").qOr "Value" 0)))),
    ("winddirDegree", J.str (jNumStr ((d.objD "Wind" |>.objD "Direction").qOr "Degrees" 0))),
    ("winddir16Point", J.str "N"),
    ("precipMM", J.str "0"),
    ("humidity", J.str "50"),
    ("pressure", J.str "1013"),
    ("visibility", J.str "10000"),
    ("cloudcover", J.str "0"),
    ("FeelsLikeC", J.str (toString (pyRound ((d.objD "RealFeelTemperature" |>.objD "Maximum").qOr "Value"
      (((d.objD "Temperature" |>.objD "Maximum").qOr "Value" 0 +
        (d.objD "Temperature" |>.objD "Minimum").qOr "Value" 0) / 2)))))]

/-- The seven keys `pop`-ped off the first day to approximate a current
condition in `_convert_accuweather_to_standard`. -/
def accuPoppedKeys : List String :=
  ["date", "maxtempC", "maxtempF", "mintempC", "mintempF", "avgtempC", "avgtempF"]

/-- `DataSourceManager._convert_accuweather_to_standard`: `None` unless the
payload is a non-empty list; the current condition is the converted first day
with the daily-only keys removed, and the daily list is truncated to `days`. -/
def convert_accuweather_to_standard (data : J) (days : Nat) : Option J :=
  match data with
  | J.arr (x :: xs) =>
    some (J.obj [("data", J.obj [
      ("request", J.arr [J.obj [("type", J.str "feature"),
        ("query", J.str (jNumStr 0 ++ "," ++ jNumStr 0))]]),
      ("current_condition", J.arr [accuPoppedKeys.foldl J.popKey (convert_accuweather_daily x)]),
      ("weather", J.arr (((x :: xs).take days).map convert_accuweather_daily))])])
  | _ => none

/-! ## Lemmas about the registry operations -/

lemma findSource_of_mem_nodup {st : List DataSource} {s : DataSource}
    (hmem : s ∈ st) (hnd : (st.map DataSource.name).Nodup) :
    findSource st s.name = some s := by
  induction st with
  | nil => cases hmem
  | cons a rest ih =>
    rw [List.map_cons, List.nodup_cons] at hnd
    rcases List.mem_cons.mp hmem with h | h
    · subst h
      simp [findSource]
    · have hne : a.name ≠ s.name := by
        intro he
        exact hnd.1 (he ▸ List.mem_map_of_mem DataSource.name h)
      rw [findSource, if_neg hne]
      exact ih h hnd.2

lemma findSource_updateSource_self {st : List DataSource} {n : String} {s : DataSource}
    (h : findSource st n = some s) (f : DataSource → DataSource)
    (hf : (f s).name = s.name) :
    findSource (updateSource st n f) n = some (f s) := by
  induction st with
  | nil => simp [findSource] at h
  | cons a rest ih =>
    by_cases ha : a.name = n
    · rw [findSource, if_pos ha] at h
      cases h
      rw [updateSource, if_pos ha, findSource, if_pos (by rw [hf]; exact ha)]
    · rw [findSource, if_neg ha] at h
      rw [updateSource, if_neg ha, findSource, if_neg ha]
      exact ih h

lemma mem_updateSource_of_ne {st : List DataSource} {q : DataSource} {n : String}
    (hmem : q ∈ st) (hne : q.name ≠ n) (f : DataSource → DataSource) :
    q ∈ updateSource st n f := by
  induction st with
  | nil => cases hmem
  | cons a rest ih =>
    rcases List.mem_cons.mp hmem with h | h
    · subst h
      rw [updateSource, if_neg hne]
      exact List.mem_cons_self _ _
    · rw [updateSource]
      by_cases ha : a.name = n
      · rw [if_pos ha]; exact List.mem_cons_of_mem _ h
      · rw [if_neg ha]; exact List.mem_cons_of_mem _ (ih h)

lemma findSource_updateSource_ne {st : List DataSource} {m n : String}
    (hne : m ≠ n) (f : DataSource → DataSource) (hf : ∀ s, (f s).name = s.name) :
    findSource (updateSource st m f) n = findSource st n := by
  induction st with
  | nil => rfl
  | cons a rest ih =>
    by_cases ha : a.name = m
    · rw [updateSource, if_pos ha]
      have hb : (f a).name ≠ n := by
        rw [hf a, ha]; exact hne
      rw [findSource, if_neg hb, findSource, if_neg (by rw [ha]; exact hne)]
    · rw [updateSource, if_neg ha]
      by_cases hb : a.name = n
      · rw [findSource, if_pos hb, findSource, if_pos hb]
      · rw [findSource, if_neg hb, findSource, if_neg hb]
        exact ih

lemma mem_updateSource_cases {st : List DataSource} {n : String}
    {f : DataSource → DataSource} {q : DataSource}
    (hmem : q ∈ updateSource st n f) :
    q ∈ st ∨ ∃ s, findSource st n = some s ∧ q = f s := by
  induction st with
  | nil => cases hmem
  | cons a rest ih =>
    by_cases ha : a.name = n
    · rw [updateSource, if_pos ha] at hmem
      rcases List.mem_cons.mp hmem with h | h
      · exact Or.inr ⟨a, by rw [findSource, if_pos ha], h⟩
      · exact Or.inl (List.mem_cons_of_mem _ h)
    · rw [updateSource, if_neg ha] at hmem
      rcases List.mem_cons.mp hmem with h | h
      · exact Or.inl (h ▸ List.mem_cons_self _ _)
      · rcases ih h with h' | ⟨s, hs, hq⟩
        · exact Or.inl (List.mem_cons_of_mem _ h')
        · exact Or.inr ⟨s, by rw [findSource, if_neg ha]; exact hs, hq⟩

lemma mem_availableSources {st : List DataSource} {s : DataSource}
    (h : s ∈ availableSources st) :
    s ∈ st ∧ s.enabled = true ∧ s.current_usage < s.rate_limit := by
  have hm := List.mem_filter.mp h
  have hb := Bool.and_eq_true_iff.mp hm.2
  exact ⟨hm.1, hb.1, of_decide_eq_true hb.2⟩

lemma get_available_source_none_iff (st : List DataSource) (k : Nat) :
    get_available_source st k = none ↔ availableSources st = [] := by
  constructor
  · intro h
    by_contra hne
    have hlen : 0 < (availableSources st).length := List.length_pos.mpr hne
    rw [get_available_source,
      if_neg (by simpa [List.isEmpty_iff] using hne)] at h
    have hidx : k % (availableSources st).length < (availableSources st).length :=
      Nat.mod_lt _ hlen
    rw [List.get?_eq_get hidx] at h
    cases h
  · intro h
    simp [get_available_source, h]

lemma get_available_source_mem {st : List DataSource} {k : Nat} {s : DataSource}
    (h : get_available_source st k = some s) : s ∈ availableSources st := by
  rw [get_available_source] at h
  by_cases he : (availableSources st).isEmpty
  · rw [if_pos he] at h; cases h
  · rw [if_neg he] at h
    exact List.get?_mem h

/-- The baseline provider from `_load_sources` (always present, no key). -/
def metnoSource : DataSource :=
  { name := "metno", type := DataSourceType.metno,
    base_url := "https://api.met.no", rate_limit := 5000 }

/-! ## Claim theorems -/

/-- C2: `get_available_source` returns an absent result if and only if the
set of registered providers with `enabled = true` and usage below quota is
empty; otherwise it returns a member of exactly that eligible subset (the
uniform random draw is modelled by the arbitrary index `k`). -/
theorem C2_get_available_source_spec (st : List DataSource) (k : Nat) :
    (get_available_source st k = none ↔ availableSources st = []) ∧
    (∀ s, get_available_source st k = some s →
      s ∈ availableSources st ∧ s ∈ st ∧ s.enabled = true ∧
        s.current_usage < s.rate_limit) := by
  refine ⟨get_available_source_none_iff st k, fun s h => ?_⟩
  have hmem := get_available_source_mem h
  exact ⟨hmem, mem_availableSources hmem⟩

/-- Witness for C2 at a concrete registry. -/
theorem C2_witness :
    metnoSource ∈ availableSources [metnoSource] ∧ metnoSource ∈ [metnoSource] ∧
      metnoSource.enabled = true ∧ metnoSource.current_usage < metnoSource.rate_limit :=
  (C2_get_available_source_spec [metnoSource] 0).2 metnoSource rfl

lemma applyQuotaOp_invariant {st : List DataSource} (op : QuotaOp)
    (h : ∀ s ∈ st, s.current_usage ≤ s.rate_limit) :
    ∀ q ∈ applyQuotaOp st op, q.current_usage ≤ q.rate_limit := by
  intro q hq
  cases op with
  | check n => exact h q hq
  | checkedUse n =>
    rw [applyQuotaOp] at hq
    by_cases he : isEligibleFor st n = true
    · rw [if_pos he] at hq
      cases hfs : findSource st n with
      | none => rw [isEligibleFor, hfs] at he; cases he
      | some s =>
        rw [mark_source_used, hfs] at hq
        simp only [Option.isSome_some, if_true] at hq
        rcases mem_updateSource_cases hq with hmem | ⟨s', hs', hqe⟩
        · exact h q hmem
        · rw [hfs] at hs'
          cases hs'
          subst hqe
          have hlt : s.current_usage < s.rate_limit := by
            rw [isEligibleFor, hfs] at he
            exact of_decide_eq_true (Bool.and_eq_true_iff.mp he).2
          simpa using hlt
    · rw [if_neg he] at hq
      exact h q hq

/-- C5: under the sequential discipline in which every usage increment is
gated by a passing eligibility check, `0 ≤ usage ≤ quota` holds for every
provider after any interleaving of checks and gated uses. -/
theorem C5_quota_invariant (st : List DataSource) (ops : List QuotaOp)
    (h : ∀ s ∈ st, s.current_usage ≤ s.rate_limit) :
    ∀ s ∈ ops.foldl applyQuotaOp st,
      0 ≤ s.current_usage ∧ s.current_usage ≤ s.rate_limit := by
  induction ops generalizing st with
  | nil => exact fun s hs => ⟨Nat.zero_le _, h s hs⟩
  | cons op rest ih =>
    intro s hs
    rw [List.foldl_cons] at hs
    exact @ih (applyQuotaOp st op) (applyQuotaOp_invariant op h) s hs

/-- Witness for C5: after a concrete gated sequence (one pure check, two
gated uses) the metno provider holds usage 2, within its quota. -/
theorem C5_witness :
    0 ≤ ({ metnoSource with current_usage := 2 } : DataSource).current_usage ∧
      ({ metnoSource with current_usage := 2 } : DataSource).current_usage ≤
        ({ metnoSource with current_usage := 2 } : DataSource).rate_limit :=
  C5_quota_invariant [metnoSource]
    [QuotaOp.check "metno", QuotaOp.checkedUse "metno", QuotaOp.checkedUse "metno"]
    (by decide) { metnoSource with current_usage := 2 } (by decide)

/-- C10: `disable_source` and `mark_source_used` called with an unregistered
name change nothing and schedule no re-enable event. -/
theorem C10_unknown_source_noop (st : List DataSource) (n : String) (now : ℚ)
    (h : findSource st n = none) :
    mark_source_used st n = st ∧ disable_source st n now = (st, []) := by
  rw [mark_source_used, disable_source, h]
  simp

/-- Witness for C10 at a concrete registry and unknown name. -/
theorem C10_witness :
    mark_source_used [metnoSource] "nosuch" = [metnoSource] ∧
      disable_source [metnoSource] "nosuch" 0 = ([metnoSource], []) :=
  C10_unknown_source_noop [metnoSource] "nosuch" 0 rfl

/-- C1: per `fetch_weather_data` call, with a registry of distinct provider
names: when no provider is selected the call returns an absent result and
changes nothing; when a provider is selected and the fetch returns a truthy
result, that provider's usage counter is incremented and the result returned;
when the fetch returns a falsy result or raises, that provider is disabled
(with one scheduled re-enable) and the call returns an absent result. In all
cases only the selected provider is touched: every other provider's
descriptor survives unchanged (no cross-provider retry). -/
theorem C1_fetch_weather_data_spec (st : List DataSource) (k : Nat)
    (oc : FetchOutcome) (now : ℚ) (hnd : (st.map DataSource.name).Nodup) :
    (get_available_source st k = none →
      fetch_weather_data st k oc now = (none, st, [])) ∧
    (∀ s, get_available_source st k = some s →
      ((∀ d, oc = FetchOutcome.value (some d) → d.truthy = true →
        fetch_weather_data st k oc now = (some d, mark_source_used st s.name, []) ∧
        findSource (mark_source_used st s.name) s.name =
          some { s with current_usage := s.current_usage + 1 } ∧
        (∀ q ∈ st, q.name ≠ s.name → q ∈ mark_source_used st s.name)) ∧
      ((oc = FetchOutcome.raised ∨ oc = FetchOutcome.value none ∨
          (∃ d, oc = FetchOutcome.value (some d) ∧ d.truthy = false)) →
        (fetch_weather_data st k oc now).1 = none ∧
        (fetch_weather_data st k oc now).2.2 = [(s.name, now + 300)] ∧
        isEnabled (fetch_weather_data st k oc now).2.1 s.name = false ∧
        (∀ q ∈ st, q.name ≠ s.name →
          q ∈ (fetch_weather_data st k oc now).2.1)))) := by
  constructor
  · intro h
    rw [fetch_weather_data, h]
  · intro s hs
    have hmem : s ∈ st := (mem_availableSources (get_available_source_mem hs)).1
    have hfind : findSource st s.name = some s := findSource_of_mem_nodup hmem hnd
    have hmark : mark_source_used st s.name =
        updateSource st s.name (fun x => { x with current_usage := x.current_usage + 1 }) := by
      rw [mark_source_used, hfind]
      rfl
    constructor
    · intro d hoc htr
      subst hoc
      refine ⟨?_, ?_, ?_⟩
      · rw [fetch_weather_data, hs]
        simp [truthyOpt, htr]
      · rw [hmark]
        exact findSource_updateSource_self hfind _ rfl
      · intro q hq hne
        rw [hmark]
        exact mem_updateSource_of_ne hq hne _
    · intro hfail
      have hdisable : disable_source st s.name now =
          (updateSource st s.name (fun x => { x with enabled := false }),
            [(s.name, now + 300)]) := by
        rw [disable_source, hfind]
        rfl
      have hrun : fetch_weather_data st k oc now =
          (none, (disable_source st s.name now).1, (disable_source st s.name now).2) := by
        rcases hfail with h | h | ⟨d, h, ht⟩ <;> subst h <;>
          rw [fetch_weather_data, hs] <;> simp [truthyOpt, *]
      rw [hrun, hdisable]
      refine ⟨rfl, rfl, ?_, ?_⟩
      · rw [isEnabled, findSource_updateSource_self hfind _ rfl]
      · intro q hq hne
        exact mem_updateSource_of_ne hq hne _

/-- A sample truthy normalized payload for the C1 witness. -/
def sampleSnapshot : J := J.obj [("data", J.obj [])]

/-- Witness for C1: concrete registry, draw index, and fetch outcomes. -/
theorem C1_witness :
    (get_available_source [metnoSource] 0 = none →
      fetch_weather_data [metnoSource] 0 (FetchOutcome.value (some sampleSnapshot)) 0 =
        (none, [metnoSource], [])) ∧
    (∀ s, get_available_source [metnoSource] 0 = some s →
      ((∀ d, FetchOutcome.value (some sampleSnapshot) = FetchOutcome.value (some d) →
        d.truthy = true →
        fetch_weather_data [metnoSource] 0 (FetchOutcome.value (some sampleSnapshot)) 0 =
          (some d, mark_source_used [metnoSource] s.name, []) ∧
        findSource (mark_source_used [metnoSource] s.name) s.name =
          some { s with current_usage := s.current_usage + 1 } ∧
        (∀ q ∈ [metnoSource], q.name ≠ s.name →
          q ∈ mark_source_used [metnoSource] s.name)) ∧
      ((FetchOutcome.value (some sampleSnapshot) = FetchOutcome.raised ∨
          FetchOutcome.value (some sampleSnapshot) = FetchOutcome.value none ∨
          (∃ d, FetchOutcome.value (some sampleSnapshot) = FetchOutcome.value (some d) ∧
            d.truthy = false)) →
        (fetch_weather_data [metnoSource] 0 (FetchOutcome.value (some sampleSnapshot)) 0).1 = none ∧
        (fetch_weather_data [metnoSource] 0 (FetchOutcome.value (some sampleSnapshot)) 0).2.2 =
          [(s.name, (0:ℚ) + 300)] ∧
        isEnabled (fetch_weather_data [metnoSource] 0
          (FetchOutcome.value (some sampleSnapshot)) 0).2.1 s.name = false ∧
        (∀ q ∈ [metnoSource], q.name ≠ s.name →
          q ∈ (fetch_weather_data [metnoSource] 0
            (FetchOutcome.value (some sampleSnapshot)) 0).2.1)))) :=
  C1_fetch_weather_data_spec [metnoSource] 0 (FetchOutcome.value (some sampleSnapshot)) 0
    (by simp)

lemma findSource_fireDue_fold {L : List (String × ℚ)} {p : String}
    (hL : ∀ q ∈ L, q.1 ≠ p) (now : ℚ) :
    ∀ st : List DataSource,
      findSource (L.foldl (fun acc e => if e.2 ≤ now then enable_in acc e.1 else acc) st) p =
        findSource st p := by
  induction L with
  | nil => intro st; rfl
  | cons e rest ih =>
    intro st
    rw [List.foldl_cons]
    have he : e.1 ≠ p := hL e (List.mem_cons_self _ _)
    have hrest : ∀ q ∈ rest, q.1 ≠ p := fun q hq => hL q (List.mem_cons_of_mem _ hq)
    by_cases hc : e.2 ≤ now
    · rw [if_pos hc, ih hrest (enable_in st e.1), enable_in]
      exact findSource_updateSource_ne he _ (fun _ => rfl)
    · rw [if_neg hc]
      exact ih hrest st

/-- C4 (amended): `disable_source` on a registered provider with no earlier
re-enable timer still pending sets `enabled := false` immediately, schedules
exactly one re-enable event 300 seconds out, and the provider is re-enabled
exactly when the cool-down has elapsed: still disabled at any earlier time,
unconditionally enabled at any later one. -/
theorem C4_disable_source_temporal (ts : TimedState) (p : String) (s : DataSource)
    (t u : ℚ) (hreg : findSource ts.sources p = some s)
    (hpend : ∀ q ∈ ts.pending, q.1 ≠ p) :
    isEnabled (disableAt ts p t).sources p = false ∧
    (disableAt ts p t).pending.filter (fun q => decide (q.1 = p)) = [(p, t + 300)] ∧
    (u < t + 300 → isEnabled (fireDue (disableAt ts p t) u).sources p = false) ∧
    (t + 300 ≤ u → isEnabled (fireDue (disableAt ts p t) u).sources p = true) := by
  have hdisable : disable_source ts.sources p t =
      (updateSource ts.sources p (fun x => { x with enabled := false }),
        [(p, t + 300)]) := by
    rw [disable_source, hreg]
    rfl
  have hsrc : (disableAt ts p t).sources =
      updateSource ts.sources p (fun x => { x with enabled := false }) := by
    rw [disableAt, hdisable]
  have hpnd : (disableAt ts p t).pending = ts.pending ++ [(p, t + 300)] := by
    rw [disableAt, hdisable]
  have hfind : findSource (disableAt ts p t).sources p =
      some { s with enabled := false } := by
    rw [hsrc]
    exact findSource_updateSource_self hreg _ rfl
  have hfd : (fireDue (disableAt ts p t) u).sources =
      ((disableAt ts p t).pending).foldl
        (fun acc e => if e.2 ≤ u then enable_in acc e.1 else acc)
        (disableAt ts p t).sources := rfl
  have hfold : findSource
      (ts.pending.foldl (fun acc e => if e.2 ≤ u then enable_in acc e.1 else acc)
        (disableAt ts p t).sources) p = some { s with enabled := false } :=
    (findSource_fireDue_fold hpend u (disableAt ts p t).sources).trans hfind
  refine ⟨?_, ?_, ?_, ?_⟩
  · rw [isEnabled, hfind]
  · rw [hpnd, List.filter_append, List.filter_eq_nil_iff.mpr
      (fun q hq => by simpa using hpend q hq)]
    simp
  · intro hu
    rw [isEnabled, hfd, hpnd, List.foldl_append, List.foldl_cons, List.foldl_nil,
      if_neg (not_le.mpr hu), hfold]
  · intro hu
    rw [isEnabled, hfd, hpnd, List.foldl_append, List.foldl_cons, List.foldl_nil,
      if_pos hu, enable_in, findSource_updateSource_self hfold _ rfl]


/-- Witness for C4 at a concrete registry: disabled at time 0, checked at
time 300. -/
theorem C4_witness :
    isEnabled (disableAt ⟨[metnoSource], []⟩ "metno" 0).sources "metno" = false ∧
    (disableAt ⟨[metnoSource], []⟩ "metno" 0).pending.filter
      (fun q => decide (q.1 = "metno")) = [("metno", (0:ℚ) + 300)] ∧
    ((300:ℚ) < 0 + 300 →
      isEnabled (fireDue (disableAt ⟨[metnoSource], []⟩ "metno" 0) 300).sources
        "metno" = false) ∧
    ((0:ℚ) + 300 ≤ 300 →
      isEnabled (fireDue (disableAt ⟨[metnoSource], []⟩ "metno" 0) 300).sources
        "metno" = true) :=
  C4_disable_source_temporal ⟨[metnoSource], []⟩ "metno" metnoSource 0 300 rfl
    (by simp)

/-- C4 counterexample to the unamended claim: with two overlapping disables
(at times 0 and 200), the timer of the first disable re-enables the provider
at time 300, before the 500-second mark at which the second disable's
cool-down elapses — so after `disable(p)` the provider can become enabled
again strictly before its cool-down has elapsed. -/
theorem C4_counterexample :
    isEnabled (fireDue (disableAt (disableAt ⟨[metnoSource], []⟩ "metno" 0)
      "metno" 200) 300).sources "metno" = true ∧
    (300:ℚ) < 200 + 300 := by
  constructor
  · norm_num [disableAt, disable_source, findSource, metnoSource, updateSource,
      fireDue, enable_in, isEnabled]
  · norm_num

lemma hasKey_truthy {kvs : List (String × J)} {k : String}
    (h : (J.obj kvs).hasKey k = true) : (J.obj kvs).truthy = true := by
  cases kvs with
  | nil => simp [J.hasKey, J.get?] at h
  | cons a rest => simp [J.truthy]

/-- C3 (amended): the OpenWeatherMap, WeatherAPI and AccuWeather adapters
return an absent result exactly when a structurally required top-level
element is missing (`current` for OpenWeatherMap; `current` and `location`
for WeatherAPI; a non-empty array payload for AccuWeather), while the MET
Norway adapter is a total stub that never returns an absent result. Missing
optional fields default instead of causing an absent result: with `current`
present but empty, OpenWeatherMap normalization still succeeds, with
humidity defaulting to "0" and visibility to "10000". -/
theorem C3_adapters_absent_iff (kvs : List (String × J)) (days : Nat)
    (x : J) (xs : List J) :
    (convert_openweather_to_standard (J.obj kvs) days = none ↔
      (J.obj kvs).hasKey "current" = false) ∧
    (convert_weatherapi_to_standard (J.obj kvs) days = none ↔
      ((J.obj kvs).hasKey "current" && (J.obj kvs).hasKey "location") = false) ∧
    convert_accuweather_to_standard (J.arr (x :: xs)) days ≠ none ∧
    convert_accuweather_to_standard (J.arr []) days = none ∧
    convert_accuweather_to_standard (J.obj kvs) days = none ∧
    (convert_openweather_hourly (J.obj [])).get? "humidity" = some (J.str "0") ∧
    (convert_openweather_hourly (J.obj [])).get? "visibility" = some (J.str "10000") := by
  refine ⟨?_, ?_, ?_, ?_, ?_, ?_, ?_⟩
  · by_cases hk : (J.obj kvs).hasKey "current"
    · have ht := hasKey_truthy hk
      simp [convert_openweather_to_standard, hk, ht]
    · have hk' : (J.obj kvs).hasKey "current" = false := by simpa using hk
      simp [convert_openweather_to_standard, hk']
  · by_cases hk1 : (J.obj kvs).hasKey "current"
    · have ht := hasKey_truthy hk1
      by_cases hk2 : (J.obj kvs).hasKey "location"
      · simp [convert_weatherapi_to_standard, hk1, hk2, ht]
      · have hk2' : (J.obj kvs).hasKey "location" = false := by simpa using hk2
        simp [convert_weatherapi_to_standard, hk1, hk2']
    · have hk1' : (J.obj kvs).hasKey "current" = false := by simpa using hk1
      simp [convert_weatherapi_to_standard, hk1']
  · simp [convert_accuweather_to_standard]
  · simp [convert_accuweather_to_standard]
  · simp [convert_accuweather_to_standard]
  · rfl
  · rfl

/-- Witness for C3 at concrete payloads. -/
theorem C3_witness :
    (convert_openweather_to_standard (J.obj [("current", J.obj [])]) 3 = none ↔
      (J.obj [("current", J.obj [])]).hasKey "current" = false) ∧
    (convert_weatherapi_to_standard (J.obj [("current", J.obj [])]) 3 = none ↔
      ((J.obj [("current", J.obj [])]).hasKey "current" &&
        (J.obj [("current", J.obj [])]).hasKey "location") = false) ∧
    convert_accuweather_to_standard (J.arr [J.obj []]) 3 ≠ none ∧
    convert_accuweather_to_standard (J.arr []) 3 = none ∧
    convert_accuweather_to_standard (J.obj [("current", J.obj [])]) 3 = none ∧
    (convert_openweather_hourly (J.obj [])).get? "humidity" = some (J.str "0") ∧
    (convert_openweather_hourly (J.obj [])).get? "visibility" = some (J.str "10000") :=
  C3_adapters_absent_iff [("current", J.obj [])] 3 (J.obj []) []

/-- C3 counterexample to the unamended every-adapter claim: the MET Norway
adapter applied to a payload with no current-conditions data returns a fully
defaulted record, not an absent result. -/
theorem C3_counterexample :
    convert_metno_to_standard (J.obj []) 3 =
      J.obj [("data", J.obj [
        ("current_condition", J.arr [J.obj [
          ("temp_C", J.str "0"),
          ("weatherDesc", J.arr [J.obj [("value", J.str "Clear")]]),
          ("humidity", J.str "50"),
          ("windspeedKmph", J.str "10")]]),
        ("weather", J.arr [])])] := rfl

/-- The `weather` list of a normalized response (statement-side accessor). -/
def weatherOf (o : Option J) : Option (List J) :=
  match o with
  | some out =>
    match (out.get? "data").bind (fun d => d.get? "weather") with
    | some (J.arr w) => some w
    | _ => none
  | none => none

lemma weatherOf_std (q : String) (cc : J) (w : List J) :
    weatherOf (some (J.obj [("data", J.obj [
      ("request", J.arr [J.obj [("type", J.str "feature"), ("query", J.str q)]]),
      ("current_condition", J.arr [cc]),
      ("weather", J.arr w)])])) = some w := rfl

/-- C8: each adapter with a daily-forecast sequence truncates it to exactly
`min days available` entries, in source order: the returned `weather` list is
the image of the first `min days available` source entries, and its length is
`min days available`. (The MET Norway stub reads no daily sequence at all and
always returns an empty `weather` list.) -/
theorem C8_daily_truncation (kvs : List (String × J)) (days : Nat)
    (xs ys zs : List J) (x : J)
    (hc : (J.obj kvs).hasKey "current" = true)
    (hd : (J.obj kvs).get? "daily" = some (J.arr xs))
    (hl : (J.obj kvs).hasKey "location" = true)
    (hf : ((J.obj kvs).objD "forecast").get? "forecastday" = some (J.arr ys)) :
    (weatherOf (convert_openweather_to_standard (J.obj kvs) days) =
        some ((xs.take days).map convert_openweather_daily) ∧
      ((xs.take days).map convert_openweather_daily).length = min days xs.length) ∧
    (weatherOf (convert_weatherapi_to_standard (J.obj kvs) days) =
        some ((ys.take days).map convert_weatherapi_daily) ∧
      ((ys.take days).map convert_weatherapi_daily).length = min days ys.length) ∧
    (weatherOf (convert_accuweather_to_standard (J.arr (x :: zs)) days) =
        some (((x :: zs).take days).map convert_accuweather_daily) ∧
      (((x :: zs).take days).map convert_accuweather_daily).length =
        min days (x :: zs).length) := by
  have ht := hasKey_truthy hc
  refine ⟨⟨?_, ?_⟩, ⟨?_, ?_⟩, ⟨?_, ?_⟩⟩
  · have hstd : convert_openweather_to_standard (J.obj kvs) days =
        some (J.obj [("data", J.obj [
          ("request", J.arr [J.obj [("type", J.str "feature"),
            ("query", J.str (jNumStr ((J.obj kvs).qOr "lat" 0) ++ "," ++
              jNumStr ((J.obj kvs).qOr "lon" 0)))]]),
          ("current_condition", J.arr [convert_openweather_hourly
            (((J.obj kvs).get? "current").getD J.null)]),
          ("weather", J.arr ((xs.take days).map convert_openweather_daily))])]) := by
      rw [convert_openweather_to_standard, if_neg (by simp [ht, hc]), hd]
    rw [hstd, weatherOf_std]
  · simp [List.length_take]
  · have hstd : convert_weatherapi_to_standard (J.obj kvs) days =
        some (J.obj [("data", J.obj [
          ("request", J.arr [J.obj [("type", J.str "feature"),
            ("query", J.str (jNumStr (((J.obj kvs).get? "location").getD J.null |>.qOr "lat" 0) ++ "," ++
              jNumStr (((J.obj kvs).get? "location").getD J.null |>.qOr "lon" 0)))]]),
          ("current_condition", J.arr [convert_weatherapi_hourly
            (((J.obj kvs).get? "current").getD J.null)]),
          ("weather", J.arr ((ys.take days).map convert_weatherapi_daily))])]) := by
      rw [convert_weatherapi_to_standard, if_neg (by simp [ht, hc, hl]), hf]
    rw [hstd, weatherOf_std]
  · simp [List.length_take]
  · rfl
  · simp [List.length_take]

/-- Witness for C8 at a concrete multi-provider payload, with a requested
horizon (5) exceeding the available day count. -/
theorem C8_witness :
    weatherOf (convert_openweather_to_standard (J.obj [("current", J.obj []),
      ("location", J.obj []), ("daily", J.arr [J.obj [], J.obj []]),
      ("forecast", J.obj [("forecastday", J.arr [J.obj []])])]) 5) =
      some ((([J.obj [], J.obj []] : List J).take 5).map convert_openweather_daily) ∧
    ((([J.obj [], J.obj []] : List J).take 5).map convert_openweather_daily).length =
      min 5 ([J.obj [], J.obj []] : List J).length :=
  (C8_daily_truncation [("current", J.obj []), ("location", J.obj []),
    ("daily", J.arr [J.obj [], J.obj []]),
    ("forecast", J.obj [("forecastday", J.arr [J.obj []])])] 5
    [J.obj [], J.obj []] [J.obj []] [] (J.obj []) rfl rfl rfl rfl).1

lemma pyRound_add_int_even (q : ℚ) (n : ℤ) (hn : n % 2 = 0) :
    pyRound (q + n) = pyRound q + n := by
  unfold pyRound
  rw [Int.floor_add_int]
  have h1 : q + (n : ℚ) - ((⌊q⌋ + n : ℤ) : ℚ) = q - (⌊q⌋ : ℚ) := by push_cast; ring
  rw [h1]
  have h2 : (⌊q⌋ + n) % 2 = ⌊q⌋ % 2 := by omega
  rw [h2]
  split_ifs <;> ring

/-- C7 (amended): the helper `_degrees_to_16_point` implements the claimed
algorithm — 0° to "N", 22.5° to "NNE", 360° to "N", 348.75° to "N", the
result is always one of the 16 fixed labels, the mapping is periodic modulo
360°, and the OpenWeatherMap adapter computes `winddir16Point` with it.
(The AccuWeather adapter instead hard-codes "N" and the WeatherAPI adapter
passes the upstream label through; see the counterexample.) -/
theorem C7_degrees_to_16_point_spec :
    degrees_to_16_point 0 = "N" ∧
    degrees_to_16_point 22.5 = "NNE" ∧
    degrees_to_16_point 360 = "N" ∧
    degrees_to_16_point 348.75 = "N" ∧
    (∀ d : ℚ, degrees_to_16_point (d + 360) = degrees_to_16_point d) ∧
    (∀ d : ℚ, degrees_to_16_point d ∈ directions16) ∧
    (∀ g : ℚ, (convert_openweather_hourly (J.obj [("wind_deg", J.num g)])).get?
      "winddir16Point" = some (J.str (degrees_to_16_point g))) := by
  refine ⟨?_, ?_, ?_, ?_, ?_, ?_, ?_⟩
  · have h : pyRound ((0:ℚ) / 22.5) = 0 :=
      pyRound_lt_half _ _ (by norm_num) (by norm_num)
    rw [degrees_to_16_point, h]; rfl
  · have h : pyRound ((22.5:ℚ) / 22.5) = 1 :=
      pyRound_lt_half _ _ (by norm_num) (by norm_num)
    rw [degrees_to_16_point, h]; rfl
  · have h : pyRound ((360:ℚ) / 22.5) = 16 :=
      pyRound_lt_half _ _ (by norm_num) (by norm_num)
    rw [degrees_to_16_point, h]; rfl
  · have h : pyRound ((348.75:ℚ) / 22.5) = 16 := by
      rw [pyRound_tie _ 15 (by norm_num)]; decide
    rw [degrees_to_16_point, h]; rfl
  · intro d
    rw [degrees_to_16_point, degrees_to_16_point]
    have h1 : (d + 360) / 22.5 = d / 22.5 + ((16:ℤ) : ℚ) := by
      rw [add_div]; norm_num
    rw [h1, pyRound_add_int_even _ 16 (by norm_num)]
    have h2 : (pyRound (d / 22.5) + 16) % 16 = pyRound (d / 22.5) % 16 := by
      have h3 : pyRound (d / 22.5) + 16 = pyRound (d / 22.5) + 16 * 1 := by ring
      rw [h3, Int.add_mul_emod_self_left]
    rw [h2]
  · intro d
    rw [degrees_to_16_point]
    have hi : (pyRound (d / 22.5) % 16).toNat < directions16.length := by
      have h1 : pyRound (d / 22.5) % 16 < 16 := Int.emod_lt_of_pos _ (by norm_num)
      simp only [directions16, List.length]
      omega
    rw [List.get?_eq_get hi]
    simp only [Option.getD_some]
    exact List.get_mem _ _ _
  · intro g
    rfl

/-- Witness for C9-adjacent instantiation is not needed here; C7's theorem
has no propositional hypothesis. Counterexample to the unamended C7 claim:
the AccuWeather adapter emits "N" for a 90° wind, where the claimed
conversion yields "E". -/
theorem C7_counterexample :
    (convert_accuweather_daily (J.obj [("Wind", J.obj [("Direction",
        J.obj [("Degrees", J.num 90)])])])).get? "winddirDegree" =
      some (J.str "90") ∧
    (convert_accuweather_daily (J.obj [("Wind", J.obj [("Direction",
        J.obj [("Degrees", J.num 90)])])])).get? "winddir16Point" =
      some (J.str "N") ∧
    degrees_to_16_point 90 = "E" := by
  refine ⟨rfl, rfl, ?_⟩
  have h : pyRound ((90:ℚ) / 22.5) = 4 :=
    pyRound_lt_half _ _ (by norm_num) (by norm_num)
  rw [degrees_to_16_point, h]; rfl

/-- C9: in `_degrees_to_16_point`, exact half-ties round to the even index
(Python banker's rounding), not uniformly upward: generally `pyRound` of any
half-integer is even, and 11.25° maps to "N" (index 0, not 1), 33.75° to
"NE" (index 2), 348.75° to "N" (index 16 mod 16). -/
theorem C9_half_ties_round_to_even :
    (∀ z : ℤ, (pyRound ((z : ℚ) + 1/2)) % 2 = 0) ∧
    degrees_to_16_point 11.25 = "N" ∧
    degrees_to_16_point 33.75 = "NE" ∧
    degrees_to_16_point 348.75 = "N" := by
  refine ⟨?_, ?_, ?_, ?_⟩
  · intro z
    rw [pyRound_tie _ z rfl]
    split_ifs with h
    · exact h
    · omega
  · have h : pyRound ((11.25:ℚ) / 22.5) = 0 := by
      rw [pyRound_tie _ 0 (by norm_num)]; decide
    rw [degrees_to_16_point, h]; rfl
  · have h : pyRound ((33.75:ℚ) / 22.5) = 2 := by
      rw [pyRound_tie _ 1 (by norm_num)]; decide
    rw [degrees_to_16_point, h]; rfl
  · have h : pyRound ((348.75:ℚ) / 22.5) = 16 := by
      rw [pyRound_tie _ 15 (by norm_num)]; decide
    rw [degrees_to_16_point, h]; rfl

/-- The current-conditions record of a normalized response
(statement-side accessor). -/
def currentCondOf (out : J) : Option J :=
  match (out.get? "data").bind (fun d => d.get? "current_condition") with
  | some (J.arr (c :: _)) => some c
  | _ => none

/-- C6 (amended): the three non-stub adapters convert units with the fixed
constants — OpenWeatherMap turns m/s into km/h with 3.6 and derives mph via
0.621371 (the rounded reciprocal of 1.60934 km/h per mph); WeatherAPI
derives mph from a supplied km/h the same way when the source omits it;
AccuWeather turns its native mph into km/h with 1.60934 — every
temperature-bearing field is converted independently by F = C*9/5 + 32, and
display fields are rounded to the nearest whole unit: 10 m/s gives "36" km/h
and "22" mph, 0 C gives "32" F, 100 C gives "212" F, 10 mph gives "16" km/h.
(The MET Norway stub adapter performs no conversion; see the
counterexample.) -/
theorem C6_unit_conversions :
    (∀ t w : ℚ,
      (convert_openweather_hourly (J.obj [("temp", J.num t),
        ("wind_speed", J.num w)])).get? "temp_F" =
          some (J.str (toString (pyRound (t * 9/5 + 32)))) ∧
      (convert_openweather_hourly (J.obj [("temp", J.num t),
        ("wind_speed", J.num w)])).get? "windspeedKmph" =
          some (J.str (toString (pyRound (w * 3.6)))) ∧
      (convert_openweather_hourly (J.obj [("temp", J.num t),
        ("wind_speed", J.num w)])).get? "windspeedMiles" =
          some (J.str (toString (pyRound (w * 3.6 * 0.621371))))) ∧
    (∀ w : ℚ,
      (convert_weatherapi_hourly (J.obj [("wind_kph", J.num w)])).get?
        "windspeedMiles" = some (J.str (toString (pyRound (w * 0.621371))))) ∧
    (∀ w mx mn : ℚ,
      (convert_accuweather_daily (J.obj [("Temperature", J.obj [
        ("Maximum", J.obj [("Value", J.num mx)]),
        ("Minimum", J.obj [("Value", J.num mn)])]),
        ("Wind", J.obj [("Speed", J.obj [("Value", J.num w)])])])).get?
          "windspeedKmph" = some (J.str (toString (pyRound (w * 1.60934)))) ∧
      (convert_accuweather_daily (J.obj [("Temperature", J.obj [
        ("Maximum", J.obj [("Value", J.num mx)]),
        ("Minimum", J.obj [("Value", J.num mn)])]),
        ("Wind", J.obj [("Speed", J.obj [("Value", J.num w)])])])).get?
          "windspeedMiles" = some (J.str (toString (pyRound w))) ∧
      (convert_accuweather_daily (J.obj [("Temperature", J.obj [
        ("Maximum", J.obj [("Value", J.num mx)]),
        ("Minimum", J.obj [("Value", J.num mn)])]),
        ("Wind", J.obj [("Speed", J.obj [("Value", J.num w)])])])).get?
          "maxtempF" = some (J.str (toString (pyRound (mx * 9/5 + 32)))) ∧
      (convert_accuweather_daily (J.obj [("Temperature", J.obj [
        ("Maximum", J.obj [("Value", J.num mx)]),
        ("Minimum", J.obj [("Value", J.num mn)])]),
        ("Wind", J.obj [("Speed", J.obj [("Value", J.num w)])])])).get?
          "mintempF" = some (J.str (toString (pyRound (mn * 9/5 + 32))))) ∧
    (convert_openweather_hourly (J.obj [("temp", J.num 0),
      ("wind_speed", J.num 10)])).get? "windspeedKmph" = some (J.str "36") ∧
    (convert_openweather_hourly (J.obj [("temp", J.num 0),
      ("wind_speed", J.num 10)])).get? "windspeedMiles" = some (J.str "22") ∧
    (convert_openweather_hourly (J.obj [("temp", J.num 0),
      ("wind_speed", J.num 10)])).get? "temp_F" = some (J.str "32") ∧
    (convert_openweather_hourly (J.obj [("temp", J.num 100),
      ("wind_speed", J.num 10)])).get? "temp_F" = some (J.str "212") ∧
    (convert_accuweather_daily (J.obj [("Wind", J.obj [("Speed",
      J.obj [("Value", J.num 10)])])])).get? "windspeedKmph" =
        some (J.str "16") := by
  refine ⟨fun t w => ⟨rfl, rfl, rfl⟩, fun w => rfl,
    fun w mx mn => ⟨rfl, rfl, rfl, rfl⟩, ?_, ?_, ?_, ?_, ?_⟩
  · have h : pyRound ((10:ℚ) * 3.6) = 36 :=
      pyRound_lt_half _ _ (by norm_num) (by norm_num)
    have e : (convert_openweather_hourly (J.obj [("temp", J.num 0),
        ("wind_speed", J.num 10)])).get? "windspeedKmph" =
        some (J.str (toString (pyRound ((10:ℚ) * 3.6)))) := rfl
    rw [e, h]; rfl
  · have h : pyRound ((10:ℚ) * 3.6 * 0.621371) = 22 :=
      pyRound_lt_half _ _ (by norm_num) (by norm_num)
    have e : (convert_openweather_hourly (J.obj [("temp", J.num 0),
        ("wind_speed", J.num 10)])).get? "windspeedMiles" =
        some (J.str (toString (pyRound ((10:ℚ) * 3.6 * 0.621371)))) := rfl
    rw [e, h]; rfl
  · have h : pyRound ((0:ℚ) * 9/5 + 32) = 32 :=
      pyRound_lt_half _ _ (by norm_num) (by norm_num)
    have e : (convert_openweather_hourly (J.obj [("temp", J.num 0),
        ("wind_speed", J.num 10)])).get? "temp_F" =
        some (J.str (toString (pyRound ((0:ℚ) * 9/5 + 32)))) := rfl
    rw [e, h]; rfl
  · have h : pyRound ((100:ℚ) * 9/5 + 32) = 212 :=
      pyRound_lt_half _ _ (by norm_num) (by norm_num)
    have e : (convert_openweather_hourly (J.obj [("temp", J.num 100),
        ("wind_speed", J.num 10)])).get? "temp_F" =
        some (J.str (toString (pyRound ((100:ℚ) * 9/5 + 32)))) := rfl
    rw [e, h]; rfl
  · have h : pyRound ((10:ℚ) * 1.60934) = 16 :=
      pyRound_lt_half _ _ (by norm_num) (by norm_num)
    have e : (convert_accuweather_daily (J.obj [("Wind", J.obj [("Speed",
        J.obj [("Value", J.num 10)])])])).get? "windspeedKmph" =
        some (J.str (toString (pyRound ((10:ℚ) * 1.60934)))) := rfl
    rw [e, h]; rfl

/-- A MET Norway payload carrying 0 degrees C and a 5 m/s wind. -/
def metnoPayload : J :=
  J.obj [("properties", J.obj [("timeseries", J.arr [J.obj [("data", J.obj [
    ("instant", J.obj [("details", J.obj [("air_temperature", J.num 0),
      ("wind_speed", J.num 5)])])])]])])]

/-- C6 counterexample to the unamended every-adapter claim: on a payload with
a 5 m/s wind the MET Norway adapter emits the fixed record below — wind speed
"10" km/h where the claimed conversion gives 18 km/h, no mph field at all,
and no Fahrenheit field for its temperature. -/
theorem C6_counterexample :
    currentCondOf (convert_metno_to_standard metnoPayload 3) =
      some (J.obj [
        ("temp_C", J.str "0"),
        ("weatherDesc", J.arr [J.obj [("value", J.str "Clear")]]),
        ("humidity", J.str "50"),
        ("windspeedKmph", J.str "10")]) ∧
    pyRound ((5:ℚ) * 3.6) = 18 ∧
    (J.obj [
        ("temp_C", J.str "0"),
        ("weatherDesc", J.arr [J.obj [("value", J.str "Clear")]]),
        ("humidity", J.str "50"),
        ("windspeedKmph", J.str "10")]).get? "temp_F" = none ∧
    (J.obj [
        ("temp_C", J.str "0"),
        ("weatherDesc", J.arr [J.obj [("value", J.str "Clear")]]),
        ("humidity", J.str "50"),
        ("windspeedKmph", J.str "10")]).get? "windspeedMiles" = none :=
  ⟨rfl, pyRound_lt_half _ _ (by norm_num) (by norm_num), rfl, rfl⟩
